import Mathlib

/-!
Shallow embedding of the order-management service of
`aws-apigateway-lambda-cdk` (TypeScript sources under `src/`):

* `src/lib/functions/createOrder.ts` — the CreateOrder Lambda handler;
* `src/lib/functions/updateInstallments.ts` — two handlers: the
  UpdateInstallments handler and the ListOrdersByClient handler;
* `src/lib/aws-apigateway-lambda-cdk-stack.ts` — the CDK stack declaring
  the DynamoDB table (partition key `ClientId : N`, sort key `OrderId : N`);
* `src/unnamed/part_000` — an alternate stack file declaring the same table
  with partition key `ClientID : N`.

DynamoDB is modelled as a table with a key schema (two attribute names) and
a list of items, each item an association list from attribute names to
attribute values.  `PutItem`, `UpdateItem` and `Query` follow DynamoDB's
documented semantics: a put replaces the item with the same key, an update
without a condition expression upserts, and both reject keys that do not
match the table's key schema; a query's key condition must name the table's
partition key.  Machine timestamps (`Date.now()`) and the random component
of `Math.random()` are passed to the handlers as explicit integer inputs.
-/

/-- A marshalled DynamoDB attribute value (the image of
`@aws-sdk/util-dynamodb`'s `marshall` on the JS values this service uses):
numbers, strings, lists and maps. -/
inductive AttrValue where
  | n (v : Int)
  | s (v : String)
  | l (v : List AttrValue)
  | m (v : List (String × AttrValue))
deriving Repr

/-- Scalar equality of attribute values, as used by DynamoDB key matching and
the `=` comparator in expressions.  Keys and the `PaymentMethod` filter in
this service only ever compare scalars, so list/map comparison is not
needed. -/
def AttrValue.eqb : AttrValue → AttrValue → Bool
  | .n a, .n b => a == b
  | .s a, .s b => a == b
  | _, _ => false

instance : BEq AttrValue := ⟨AttrValue.eqb⟩

/-- Is the value of DynamoDB number type (`N`)? -/
def AttrValue.isNum : AttrValue → Bool
  | .n _ => true
  | _ => false

/-- A stored item: an association list from attribute names to values. -/
abbrev Item := List (String × AttrValue)

/-- Look up an attribute of an item by name. -/
def getAttr (it : Item) (k : String) : Option AttrValue :=
  (it.find? (fun p => p.1 == k)).map Prod.snd

/-- `SET name = value`: overwrite the attribute if present, append it
otherwise (DynamoDB `SET` action semantics). -/
def setAttr : Item → String → AttrValue → Item
  | [], k, v => [(k, v)]
  | (k', v') :: rest, k, v =>
    if k' == k then (k, v) :: rest else (k', v') :: setAttr rest k v

/-- Apply a list of `SET` actions left to right. -/
def setAttrs (it : Item) (sets : List (String × AttrValue)) : Item :=
  sets.foldl (fun acc p => setAttr acc p.1 p.2) it

/-- A DynamoDB table: the key schema (partition-key and sort-key attribute
names, both of number type in this stack) and the stored items. -/
structure DTable where
  pk : String
  sk : String
  items : List Item

/-- The table declared in `src/lib/aws-apigateway-lambda-cdk-stack.ts`
(lines 14–25): `partitionKey ClientId : N`, `sortKey OrderId : N`. -/
def stackTable (items : List Item) : DTable :=
  { pk := "ClientId", sk := "OrderId", items := items }

/-- The table declared in the alternate stack file `src/unnamed/part_000`
(lines 14–25): `partitionKey ClientID : N`, `sortKey OrderId : N`. -/
def part000Table (items : List Item) : DTable :=
  { pk := "ClientID", sk := "OrderId", items := items }

/-- DynamoDB key validation: a `Key` map must contain exactly the table's
two key attributes, with values of the declared (number) type; anything
else is a `ValidationException`. -/
def validKey (tbl : DTable) (key : Item) : Bool :=
  key.length == 2 &&
    (match getAttr key tbl.pk with
     | some v => v.isNum
     | none => false) &&
    (match getAttr key tbl.sk with
     | some v => v.isNum
     | none => false)

/-- A `PutItem` item must contain the table's key attributes with values of
the declared type (extra attributes are allowed). -/
def validPutItem (tbl : DTable) (item : Item) : Bool :=
  (match getAttr item tbl.pk with
   | some v => v.isNum
   | none => false) &&
    (match getAttr item tbl.sk with
     | some v => v.isNum
     | none => false)

/-- Do two items agree on the table's primary key? -/
def matchesKey (tbl : DTable) (key : Item) (it : Item) : Bool :=
  getAttr it tbl.pk == getAttr key tbl.pk && getAttr it tbl.sk == getAttr key tbl.sk

/-- DynamoDB `PutItem`: unconditional write; replaces the item with the same
primary key if one exists, inserts otherwise.  Fails when the item does not
carry the table's key attributes. -/
def putItem (tbl : DTable) (item : Item) : Except String DTable :=
  if validPutItem tbl item then
    if tbl.items.any (matchesKey tbl item) then
      .ok { tbl with items := tbl.items.map (fun it => if matchesKey tbl item it then item else it) }
    else
      .ok { tbl with items := tbl.items ++ [item] }
  else
    .error "ValidationException: One of the required keys was not given a value"

/-- A condition expression, as far as this service could use one.  The
handlers never pass one (`cond = none`). -/
inductive CondExpr where
  | attrExists (name : String)

/-- DynamoDB `UpdateItem`: validates the key against the table's key schema;
when the key exists, applies the `SET` actions to that item; when it is
absent and no condition expression forbids it, UPSERTS — creates a new item
holding the key attributes plus the `SET` attributes. -/
def updateItem (tbl : DTable) (key : Item) (sets : List (String × AttrValue))
    (cond : Option CondExpr) : Except String DTable :=
  if validKey tbl key then
    if tbl.items.any (matchesKey tbl key) then
      .ok { tbl with items := tbl.items.map (fun it => if matchesKey tbl key it then setAttrs it sets else it) }
    else
      match cond with
      | some (.attrExists _) => .error "ConditionalCheckFailedException"
      | none => .ok { tbl with items := tbl.items ++ [setAttrs key sets] }
  else
    .error "ValidationException: The provided key element does not match the schema"

/-- DynamoDB `Query`: the key condition expression must name the table's
partition key (otherwise `ValidationException: Query condition missed key
schema element`); returns the items of the partition, post-filtered by the
optional filter expression (`attribute = value`). -/
def queryByPartition (tbl : DTable) (pkName : String) (pkVal : AttrValue)
    (filter : Option (String × AttrValue)) : Except String (List Item) :=
  if pkName == tbl.pk then
    .ok ((tbl.items.filter (fun it => getAttr it pkName == some pkVal)).filter
      (fun it =>
        match filter with
        | none => true
        | some (fn, fv) => getAttr it fn == some fv))
  else
    .error "ValidationException: Query condition missed key schema element"

/-! ## The JavaScript side: JSON values, `parseInt`, `unmarshall` -/

/-- A JSON value, the shape of handler response bodies (the argument of
`JSON.stringify`) and of unmarshalled orders. -/
inductive JsVal where
  | bool (b : Bool)
  | num (v : Int)
  | str (v : String)
  | arr (xs : List JsVal)
  | obj (fields : List (String × JsVal))
deriving Repr

mutual

/-- `unmarshall` from `@aws-sdk/util-dynamodb`: a DynamoDB attribute value
back to a plain JS value. -/
def unmarshallAttr : AttrValue → JsVal
  | .n v => .num v
  | .s v => .str v
  | .l vs => .arr (unmarshallValues vs)
  | .m fs => .obj (unmarshallFields fs)

def unmarshallValues : List AttrValue → List JsVal
  | [] => []
  | v :: vs => unmarshallAttr v :: unmarshallValues vs

def unmarshallFields : List (String × AttrValue) → List (String × JsVal)
  | [] => []
  | (k, v) :: fs => (k, unmarshallAttr v) :: unmarshallFields fs

end

/-- `unmarshall` applied to a whole item. -/
def unmarshallItem (it : Item) : JsVal :=
  .obj (it.map (fun p => (p.1, unmarshallAttr p.2)))

/-- JavaScript `parseInt` (radix 10): skip leading spaces, optional sign,
then the longest prefix of decimal digits; `none` models `NaN` (no digit
found). -/
def digitsToNat (ds : List Char) : Nat :=
  ds.foldl (fun a c => a * 10 + (c.toNat - 48)) 0

def parseIntJS (str : String) : Option Int :=
  let cs := str.toList.dropWhile (fun c => c == ' ')
  let core : List Char → Option Nat := fun l =>
    let ds := l.takeWhile Char.isDigit
    if ds.isEmpty then none else some (digitsToNat ds)
  match cs with
  | '-' :: rest => (core rest).map (fun v => -(v : Int))
  | '+' :: rest => (core rest).map (fun v => (v : Int))
  | _ => (core cs).map (fun v => (v : Int))

/-- JavaScript truthiness of a `string | undefined` path or query
parameter: `undefined` and the empty string are falsy. -/
def isFalsy (o : Option String) : Bool :=
  match o with
  | none => true
  | some s => s == ""

/-! ## Handler inputs, outputs, and the store-operation trace -/

/-- An API Gateway proxy response: status code and JSON body (all handler
responses also carry the constant header `Content-Type: application/json`,
which no property here depends on). -/
structure Resp where
  statusCode : Nat
  body : JsVal
deriving Repr

/-- Look up a field of a response's JSON object body. -/
def bodyField (r : Resp) (k : String) : Option JsVal :=
  match r.body with
  | .obj fields => (fields.find? (fun p => p.1 == k)).map Prod.snd
  | _ => none

/-- The generic 500 response every catch block produces
(`createOrder.ts` 81–90, `updateInstallments.ts` 93–102 and 233–242). -/
def resp500 : Resp :=
  { statusCode := 500
    body := .obj [("success", .bool false), ("error", .str "Erro interno do servidor")] }

/-- A store call issued by a handler (one entry per `client.send`). -/
inductive StoreOp where
  | put (item : Item)
  | update (key : Item) (sets : List (String × AttrValue)) (cond : Option CondExpr)
  | query (pkName : String) (pkVal : AttrValue) (filter : Option (String × AttrValue))

/-- `ConditionExpression` of an issued update, if any. -/
def StoreOp.condOf : StoreOp → Option CondExpr
  | .update _ _ c => c
  | _ => none

/-! ## CreateOrder (`src/lib/functions/createOrder.ts`) -/

/-- One element of the `items` array of a CreateOrder payload. -/
structure OrderItem where
  productId : Int
  quantity : Int

/-- A CreateOrder request body after API Gateway request validation and
`JSON.parse` (the gateway's `CreateOrderModel` guarantees the four fields
are present with these types). -/
structure CreateOrderPayload where
  clientId : Int
  items : List OrderItem
  paymentMethod : String
  installments : Int

/-- `generateOrderId` (createOrder.ts 20–24):
`Date.now() * 1000 + Math.floor(Math.random() * 1000)`.  `dateNowMs` is the
millisecond clock and `rand` the value of `Math.floor(Math.random()*1000)`,
so `0 ≤ rand < 1000`. -/
def generateOrderId (dateNowMs rand : Int) : Int :=
  dateNowMs * 1000 + rand

/-- `marshall` of one entry of the `items` array. -/
def orderItemAttr (it : OrderItem) : AttrValue :=
  .m [("productId", .n it.productId), ("quantity", .n it.quantity)]

/-- The item CreateOrder builds and puts (createOrder.ts 41–48). -/
def orderItem (order : CreateOrderPayload) (orderId : Int) (now : String) : Item :=
  [("ClientId", .n order.clientId),
   ("OrderId", .n orderId),
   ("Items", .l (order.items.map orderItemAttr)),
   ("PaymentMethod", .s order.paymentMethod),
   ("Installments", .n order.installments),
   ("CreatedAt", .s now)]

/-- The CreateOrder handler (createOrder.ts 26–92).  `dateNowMs`/`rand` feed
`generateOrderId`, `now` is the `new Date().toISOString()` timestamp.
Returns the response, the table after the call, and the store calls
issued. -/
def createOrderHandler (tbl : DTable) (order : CreateOrderPayload)
    (dateNowMs rand : Int) (now : String) : Resp × DTable × List StoreOp :=
  let orderId := generateOrderId dateNowMs rand
  let item := orderItem order orderId now
  match putItem tbl item with
  | .ok tbl' =>
    ({ statusCode := 201
       body := .obj [("success", .bool true), ("orderId", .num orderId),
                     ("clientId", .num order.clientId)] },
     tbl', [.put item])
  | .error _ => (resp500, tbl, [.put item])

/-! ## UpdateInstallments (`src/lib/functions/updateInstallments.ts`, first handler) -/

/-- An UpdateInstallments request: the two path parameters as raw strings
(`undefined` when absent) and `payload.installments` after
`JSON.parse(event.body || "\x7b\x7d")` — `none` models an absent
(`undefined`) field. -/
structure UpdateEvent where
  clientId : Option String
  orderId : Option String
  installments : Option Int

/-- The key UpdateInstallments marshalls (updateInstallments.ts 48–51):
note the attribute name `ClientID`. -/
def updateKey (c o : Int) : Item :=
  [("ClientID", .n c), ("OrderId", .n o)]

/-- The `SET Installments = :installments, UpdatedAt = :updatedAt` actions
with their marshalled values (updateInstallments.ts 54–58). -/
def updateSets (inst : Int) (now : String) : List (String × AttrValue) :=
  [("Installments", .n inst), ("UpdatedAt", .s now)]

/-- The 400 response of UpdateInstallments when a path parameter is falsy
(updateInstallments.ts 26–35). -/
def updMissingResp : Resp :=
  { statusCode := 400
    body := .obj [("success", .bool false),
                  ("error", .str "clientId e orderId são obrigatórios no path")] }

/-- The UpdateInstallments handler (updateInstallments.ts 15–104).
After the presence check, the body runs inside `try`: `marshall` throws on
the `NaN` produced by `parseInt` of a non-numeric id, and on an `undefined`
`installments`; every throw and every store error lands in the catch block,
which returns the generic 500.  The `UpdateItemCommand` carries no
`ConditionExpression` (`cond = none`). -/
def updateInstallmentsHandler (tbl : DTable) (ev : UpdateEvent) (now : String) :
    Resp × DTable × List StoreOp :=
  if isFalsy ev.clientId || isFalsy ev.orderId then
    (updMissingResp, tbl, [])
  else
    match parseIntJS (ev.clientId.getD ""), parseIntJS (ev.orderId.getD "") with
    | some c, some o =>
      match ev.installments with
      | some inst =>
        let key := updateKey c o
        let sets := updateSets inst now
        match updateItem tbl key sets none with
        | .ok tbl' =>
          ({ statusCode := 200
             body := .obj [("success", .bool true), ("clientId", .num c),
                           ("orderId", .num o), ("installments", .num inst)] },
           tbl', [.update key sets none])
        | .error _ => (resp500, tbl, [.update key sets none])
      | none => (resp500, tbl, [])
    | _, _ => (resp500, tbl, [])

/-! ## ListOrdersByClient (`src/lib/functions/updateInstallments.ts`, second handler) -/

/-- A ListOrdersByClient request: the `clientId` path parameter and the
optional `paymentMethod` query parameter, both raw strings. -/
structure ListEvent where
  clientId : Option String
  paymentMethod : Option String

/-- `VALID_PAYMENT_METHODS` (updateInstallments.ts 124). -/
def VALID_PAYMENT_METHODS : List String :=
  ["credit_card", "debit_card", "pix"]

/-- 400 response: missing `clientId` (updateInstallments.ts 136–145). -/
def listMissingResp : Resp :=
  { statusCode := 400
    body := .obj [("success", .bool false),
                  ("error", .str "clientId é obrigatório no path")] }

/-- 400 response: non-numeric `clientId` (updateInstallments.ts 150–159). -/
def listNaNResp : Resp :=
  { statusCode := 400
    body := .obj [("success", .bool false),
                  ("error", .str "clientId deve ser um número válido")] }

/-- 400 response: invalid `paymentMethod` filter (updateInstallments.ts
167–176); its message interpolates `VALID_PAYMENT_METHODS.join(", ")`. -/
def listBadFilterResp : Resp :=
  { statusCode := 400
    body := .obj [("success", .bool false),
                  ("error", .str ("paymentMethod inválido. Valores aceitos: "
                    ++ String.intercalate ", " VALID_PAYMENT_METHODS))] }

/-- The ListOrdersByClient handler (updateInstallments.ts 126–244): presence
check, `isNaN(parseInt(clientId))` check, filter validation (only when the
filter is truthy), then a `QueryCommand` with key condition
`ClientId = :clientId` and, when the filter is truthy, filter expression
`PaymentMethod = :paymentMethod`.  Reads only, so no table is returned. -/
def getOrdersByClientHandler (tbl : DTable) (ev : ListEvent) :
    Resp × List StoreOp :=
  if isFalsy ev.clientId then
    (listMissingResp, [])
  else
    match parseIntJS (ev.clientId.getD "") with
    | none => (listNaNResp, [])
    | some cid =>
      let pm := ev.paymentMethod
      let pmTruthy := !(isFalsy pm)
      if pmTruthy && !(VALID_PAYMENT_METHODS.contains (pm.getD "")) then
        (listBadFilterResp, [])
      else
        let filter : Option (String × AttrValue) :=
          if pmTruthy then some ("PaymentMethod", .s (pm.getD "")) else none
        let op := StoreOp.query "ClientId" (.n cid) filter
        match queryByPartition tbl "ClientId" (.n cid) filter with
        | .ok items =>
          let orders := items.map unmarshallItem
          ({ statusCode := 200
             body := .obj ([("success", .bool true), ("clientId", .num cid)]
               ++ (if pmTruthy then [("paymentMethod", .str (pm.getD ""))] else [])
               ++ [("count", .num orders.length), ("orders", .arr orders)]) },
           [op])
        | .error _ => (resp500, [op])

/-! ## Concrete scenario data -/

/-- The CreateOrder payload of the spec's round-trip scenario:
`clientId 1, items [(productId 10, quantity 2)], paymentMethod pix,
installments 3`. -/
def pixPayload : CreateOrderPayload :=
  { clientId := 1
    items := [{ productId := 10, quantity := 2 }]
    paymentMethod := "pix"
    installments := 3 }

/-- The declared (`ClientId`-keyed) table after creating `pixPayload` at
`Date.now() = 1000`, random draw `5` (so `orderId = 1000005`), timestamp
`"T0"`. -/
def pixStore : DTable :=
  (createOrderHandler (stackTable []) pixPayload 1000 5 "T0").2.1

/-- The UpdateInstallments request of the spec's scenario: path
`clientId=1, orderId=1000005`, body `installments: 6`. -/
def updEvent6 : UpdateEvent :=
  { clientId := some "1", orderId := some "1000005", installments := some 6 }

/-- A second CreateOrder payload for client 1 with different items and
payment method. -/
def cardPayload : CreateOrderPayload :=
  { clientId := 1
    items := [{ productId := 99, quantity := 1 }]
    paymentMethod := "credit_card"
    installments := 12 }

/-- An order record keyed the way the UpdateInstallments handler addresses
the store (`ClientID`), as stored under the `src/unnamed/part_000` table
declaration. -/
def p0Item : Item :=
  [("ClientID", .n 1), ("OrderId", .n 2), ("PaymentMethod", .s "pix"),
   ("Installments", .n 3)]

/-! ## Claims -/

/-- **C1** (code bug).  The spec's scenario — UpdateInstallments on
`clientId=1` and the created order with body `installments: 6` returns
`success:true … installments:6` and a subsequent ListOrdersByClient shows
`installments: 6` — fails on the code: against the table declared in
`aws-apigateway-lambda-cdk-stack.ts` (partition key `ClientId`), the
handler's key uses attribute name `ClientID` (updateInstallments.ts 49), so
the store rejects the update; the handler answers with the generic 500, the
store is unchanged, and the subsequent list still shows `installments: 3`. -/
theorem update_scenario_returns_500_and_installments_stay_3 :
    (updateInstallmentsHandler pixStore updEvent6 "T1").1 = resp500
  ∧ (updateInstallmentsHandler pixStore updEvent6 "T1").2.1 = pixStore
  ∧ bodyField (getOrdersByClientHandler
      (updateInstallmentsHandler pixStore updEvent6 "T1").2.1
      { clientId := some "1", paymentMethod := none }).1 "orders"
    = some (.arr [.obj [("ClientId", .num 1), ("OrderId", .num 1000005),
        ("Items", .arr [.obj [("productId", .num 10), ("quantity", .num 2)]]),
        ("PaymentMethod", .str "pix"), ("Installments", .num 3),
        ("CreatedAt", .str "T0")]]) :=
  ⟨rfl, rfl, rfl⟩

/-- **C4** (code bug).  The three operations do not address the store with
one partition-key attribute name.  The table of
`aws-apigateway-lambda-cdk-stack.ts` declares `ClientId`; CreateOrder's item
and ListOrdersByClient's key condition use `ClientId`, but
UpdateInstallments' key uses `ClientID`, so against that table the update of
an existing `(1, 1000005)` order is rejected by the store.  Under the
alternate declaration of `src/unnamed/part_000` (`ClientID`) the update key
matches but CreateOrder's put and the list's query fail instead — under
neither declaration do all three operations agree. -/
theorem partition_key_attribute_names_disagree :
    ((orderItem pixPayload 1000005 "T0").map Prod.fst).head? = some "ClientId"
  ∧ (getOrdersByClientHandler pixStore { clientId := some "1", paymentMethod := none }).2
    = [.query "ClientId" (.n 1) none]
  ∧ ((updateKey 1 1000005).map Prod.fst).head? = some "ClientID"
  ∧ ((updateKey 1 1000005).map Prod.fst).head? ≠ some ((stackTable []).pk)
  ∧ updateItem pixStore (updateKey 1 1000005) (updateSets 6 "T1") none
    = .error "ValidationException: The provided key element does not match the schema"
  ∧ (createOrderHandler (part000Table []) pixPayload 1000 5 "T0").1 = resp500
  ∧ (getOrdersByClientHandler (part000Table []) { clientId := some "1", paymentMethod := none }).1 = resp500 :=
  ⟨rfl, rfl, rfl, by decide, rfl, rfl, rfl⟩

/-- **C2** (counterexample).  The claim says an UpdateInstallments call on
an absent `(clientId, orderId)` key fails and creates no record, the
adapter emulating "update must fail when the key is absent" with a
conditional check.  The handler sends its `UpdateItemCommand` with no
`ConditionExpression`; under the table declaration whose partition key
matches the handler's key attribute (`ClientID`, `src/unnamed/part_000`),
updating the absent key `(1, 2)` on an empty store answers
`200 / success:true` and inserts a new partial record. -/
theorem update_absent_key_upserts_and_succeeds :
    (updateInstallmentsHandler (part000Table [])
      { clientId := some "1", orderId := some "2", installments := some 6 } "T1").1.statusCode = 200
  ∧ bodyField (updateInstallmentsHandler (part000Table [])
      { clientId := some "1", orderId := some "2", installments := some 6 } "T1").1 "success"
    = some (.bool true)
  ∧ (updateInstallmentsHandler (part000Table [])
      { clientId := some "1", orderId := some "2", installments := some 6 } "T1").2.1.items
    = [[("ClientID", .n 1), ("OrderId", .n 2), ("Installments", .n 6), ("UpdatedAt", .s "T1")]]
  ∧ ((updateInstallmentsHandler (part000Table [])
      { clientId := some "1", orderId := some "2", installments := some 6 } "T1").2.2.map StoreOp.condOf)
    = [none] :=
  ⟨rfl, rfl, rfl, rfl⟩

/-- **C2** (amended).  UpdateInstallments issues its `UpdateItemCommand`
with no `ConditionExpression`, so "update must fail when the key is absent"
is not emulated: against a table whose key schema matches the handler's key
attributes (`ClientID`/`OrderId`, the declaration of
`src/unnamed/part_000`), a call on an absent key succeeds with status 200
and upserts a new partial record (key attributes plus `Installments` and
`UpdatedAt` only); against the `ClientId`-keyed table of
`aws-apigateway-lambda-cdk-stack.ts` the call fails, but with a key-schema
validation error independent of whether the key exists. -/
theorem update_unconditional_upsert_on_absent_key
    (items : List Item) (s₁ s₂ : String) (c o inst : Int) (now : String)
    (h₁ : parseIntJS s₁ = some c) (h₂ : parseIntJS s₂ = some o)
    (ht₁ : s₁ ≠ "") (ht₂ : s₂ ≠ "")
    (habs : items.any (matchesKey (part000Table items) (updateKey c o)) = false) :
    (updateInstallmentsHandler (part000Table items)
      { clientId := some s₁, orderId := some s₂, installments := some inst } now).1.statusCode = 200
  ∧ (updateInstallmentsHandler (part000Table items)
      { clientId := some s₁, orderId := some s₂, installments := some inst } now).2.1.items
    = items ++ [setAttrs (updateKey c o) (updateSets inst now)]
  ∧ ((updateInstallmentsHandler (part000Table items)
      { clientId := some s₁, orderId := some s₂, installments := some inst } now).2.2.map StoreOp.condOf)
    = [none] := by
  have e₁ : (s₁ == "") = false := beq_eq_false_iff_ne.mpr ht₁
  have e₂ : (s₂ == "") = false := beq_eq_false_iff_ne.mpr ht₂
  unfold updateInstallmentsHandler
  simp only [isFalsy, e₁, e₂, Bool.or_self, Bool.false_or, if_neg, Bool.false_eq_true,
    not_false_iff, ite_false, Option.getD_some, h₁, h₂]
  unfold updateItem
  have hvk : validKey (part000Table items) (updateKey c o) = true := by
    simp [validKey, part000Table, updateKey, getAttr, AttrValue.isNum, List.find?]
  simp only [part000Table] at hvk habs ⊢
  simp [hvk, habs, StoreOp.condOf]

/-- Witness for `update_unconditional_upsert_on_absent_key` at
`clientId="1", orderId="2", installments=6` on the empty store. -/
theorem update_unconditional_upsert_on_absent_key_witness :
    (updateInstallmentsHandler (part000Table [])
      { clientId := some "1", orderId := some "2", installments := some 6 } "T1").2.1.items
    = [] ++ [setAttrs (updateKey 1 2) (updateSets 6 "T1")] :=
  (update_unconditional_upsert_on_absent_key [] "1" "2" 1 2 6 "T1"
    rfl rfl (by decide) (by decide) rfl).2.1

/-- **C6** (counterexample).  The claim says an UpdateInstallments request
whose path ids are present but not parseable as integers is rejected with a
4xx-equivalent client error.  At `clientId="abc", orderId="2",
installments=6` the handler instead returns the generic 500 (the presence
check passes and `marshall` then throws on the `NaN` from `parseInt`); no
store access occurs. -/
theorem non_numeric_clientid_returns_500_not_4xx :
    (updateInstallmentsHandler (stackTable [])
      { clientId := some "abc", orderId := some "2", installments := some 6 } "T").1 = resp500
  ∧ ¬ (400 ≤ (updateInstallmentsHandler (stackTable [])
      { clientId := some "abc", orderId := some "2", installments := some 6 } "T").1.statusCode
      ∧ (updateInstallmentsHandler (stackTable [])
      { clientId := some "abc", orderId := some "2", installments := some 6 } "T").1.statusCode < 500)
  ∧ (updateInstallmentsHandler (stackTable [])
      { clientId := some "abc", orderId := some "2", installments := some 6 } "T").2.2 = [] :=
  ⟨rfl, by decide, rfl⟩

/-- **C6** (amended).  An UpdateInstallments request whose path ids are both
present (truthy) but at least one of them not parseable as an integer is
rejected before any store access — no store call is issued and the table is
unchanged — but with the generic 5xx response of the catch block
(`marshall` throws on the `NaN` produced by `parseInt`), not a
4xx-equivalent client error: the 400 path only checks presence. -/
theorem non_numeric_path_id_gives_generic_500_before_store
    (tbl : DTable) (ev : UpdateEvent) (now : String)
    (h₁ : isFalsy ev.clientId = false) (h₂ : isFalsy ev.orderId = false)
    (hnan : parseIntJS (ev.clientId.getD "") = none ∨ parseIntJS (ev.orderId.getD "") = none) :
    updateInstallmentsHandler tbl ev now = (resp500, tbl, []) := by
  unfold updateInstallmentsHandler
  rw [h₁, h₂]
  simp only [Bool.or_self, Bool.false_eq_true, if_false]
  split
  · rename_i c o hc ho
    rw [hc] at hnan
    rw [ho] at hnan
    simp at hnan
  · rfl

/-- Witness for `non_numeric_path_id_gives_generic_500_before_store` at
`clientId="abc", orderId="2"`. -/
theorem non_numeric_path_id_gives_generic_500_before_store_witness :
    updateInstallmentsHandler (stackTable [])
      { clientId := some "abc", orderId := some "2", installments := some 6 } "T"
    = (resp500, stackTable [], []) :=
  non_numeric_path_id_gives_generic_500_before_store (stackTable [])
    { clientId := some "abc", orderId := some "2", installments := some 6 } "T"
    rfl rfl (Or.inl rfl)

/-- **C3** (confirmed).  CreateOrder with `clientId 1, items
[(productId 10, quantity 2)], paymentMethod "pix", installments 3` on the
empty declared table answers 201 with
`success:true, orderId:<the generated number>, clientId:1`, and a
subsequent ListOrdersByClient for `clientId=1` answers 200 with exactly one
order carrying exactly the created fields — for every `Date.now()` value
`t`, random draw `r` and creation timestamp `now`. -/
theorem create_then_list_roundtrip (t r : Int) (now : String) :
    (createOrderHandler (stackTable []) pixPayload t r now).1
    = { statusCode := 201
        body := .obj [("success", .bool true), ("orderId", .num (generateOrderId t r)),
                      ("clientId", .num 1)] }
  ∧ (getOrdersByClientHandler (createOrderHandler (stackTable []) pixPayload t r now).2.1
      { clientId := some "1", paymentMethod := none }).1
    = { statusCode := 200
        body := .obj [("success", .bool true), ("clientId", .num 1), ("count", .num 1),
          ("orders", .arr [.obj [("ClientId", .num 1), ("OrderId", .num (generateOrderId t r)),
            ("Items", .arr [.obj [("productId", .num 10), ("quantity", .num 2)]]),
            ("PaymentMethod", .str "pix"), ("Installments", .num 3),
            ("CreatedAt", .str now)]])] } :=
  ⟨rfl, rfl⟩

/-- **C5** (counterexample).  `generateOrderId` is
`Date.now()*1000 + Math.floor(Math.random()*1000)`, so pairwise
distinctness across 10,000 rapid calls is not guaranteed: 10,000 calls
landing in the same millisecond (`Date.now() = 100`) and drawing the same
random value `7` all return the same orderId — the 10,000 returned ids are
not pairwise distinct. -/
theorem orderIds_not_pairwise_distinct_counterexample :
    ¬ (((List.replicate 10000 ((100 : Int), (7 : Int))).map
        (fun p => generateOrderId p.1 p.2)).Nodup) := by
  rw [List.map_replicate]
  rw [List.nodup_replicate]
  omega

/-- **C5** (amended).  For every CreateOrder call against the declared
table the response is 201 and carries the generated orderId as a JSON
number, and two calls return distinct orderIds exactly when their
`(Date.now(), Math.floor(Math.random()*1000))` inputs differ — ids are
injective on the input pairs (with the random component in `[0, 1000)`) but
calls sharing a millisecond and a random draw collide, so uniqueness across
10,000 rapid calls is best-effort, not guaranteed. -/
theorem orderId_numeric_and_injective_on_inputs :
    (∀ (items : List Item) (order : CreateOrderPayload) (t r : Int) (now : String),
      (createOrderHandler (stackTable items) order t r now).1.statusCode = 201
      ∧ bodyField (createOrderHandler (stackTable items) order t r now).1 "orderId"
        = some (.num (generateOrderId t r)))
  ∧ (∀ t₁ r₁ t₂ r₂ : Int, 0 ≤ r₁ → r₁ < 1000 → 0 ≤ r₂ → r₂ < 1000 →
      generateOrderId t₁ r₁ = generateOrderId t₂ r₂ → t₁ = t₂ ∧ r₁ = r₂) := by
  constructor
  · intro items order t r now
    have hv : validPutItem (stackTable items) (orderItem order (generateOrderId t r) now) = true := rfl
    unfold createOrderHandler putItem
    simp only [hv, eq_self_iff_true, if_true]
    by_cases hany : (stackTable items).items.any
        (matchesKey (stackTable items) (orderItem order (generateOrderId t r) now)) = true
    · simp only [hany, eq_self_iff_true, if_true]
      exact ⟨trivial, rfl⟩
    · simp only [Bool.not_eq_true] at hany
      simp only [hany, Bool.false_eq_true, if_false]
      exact ⟨trivial, rfl⟩
  · intro t₁ r₁ t₂ r₂ h₁ h₁' h₂ h₂' heq
    unfold generateOrderId at heq
    omega

/-- Witness for `orderId_numeric_and_injective_on_inputs`: the response
part at the pix payload with `t=100, r=7`, and injectivity at
`(3, 5) = (3, 5)`. -/
theorem orderId_numeric_and_injective_on_inputs_witness :
    ((createOrderHandler (stackTable []) pixPayload 100 7 "T0").1.statusCode = 201
      ∧ bodyField (createOrderHandler (stackTable []) pixPayload 100 7 "T0").1 "orderId"
        = some (.num (generateOrderId 100 7)))
  ∧ ((3 : Int) = 3 ∧ (5 : Int) = 5) :=
  ⟨orderId_numeric_and_injective_on_inputs.1 [] pixPayload 100 7 "T0",
   orderId_numeric_and_injective_on_inputs.2 3 5 3 5 (by decide) (by decide)
     (by decide) (by decide) rfl⟩

/-- **C7** (confirmed).  Every validation failure returns its client-error
response with the store untouched: an UpdateInstallments request with a
falsy `clientId` or `orderId` answers the 400 "required" response, leaves
the table unchanged and issues no store call; a ListOrdersByClient request
with a falsy `clientId` answers the 400 "required" response, one with a
non-numeric `clientId` the 400 "must be numeric" response, and one with a
truthy `paymentMethod` outside the enumerated literals a 400 — in every
case with no store call issued. -/
theorem validation_failures_never_invoke_store :
    (∀ (tbl : DTable) (ev : UpdateEvent) (now : String),
      (isFalsy ev.clientId = true ∨ isFalsy ev.orderId = true) →
      updateInstallmentsHandler tbl ev now = (updMissingResp, tbl, []))
  ∧ (∀ (tbl : DTable) (ev : ListEvent),
      isFalsy ev.clientId = true →
      getOrdersByClientHandler tbl ev = (listMissingResp, []))
  ∧ (∀ (tbl : DTable) (ev : ListEvent),
      isFalsy ev.clientId = false →
      parseIntJS (ev.clientId.getD "") = none →
      getOrdersByClientHandler tbl ev = (listNaNResp, []))
  ∧ (∀ (tbl : DTable) (ev : ListEvent),
      isFalsy ev.clientId = false →
      isFalsy ev.paymentMethod = false →
      VALID_PAYMENT_METHODS.contains (ev.paymentMethod.getD "") = false →
      (getOrdersByClientHandler tbl ev).1.statusCode = 400
      ∧ (getOrdersByClientHandler tbl ev).2 = []) := by
  refine ⟨?_, ?_, ?_, ?_⟩
  · intro tbl ev now h
    unfold updateInstallmentsHandler
    rcases h with h | h <;> simp [h]
  · intro tbl ev h
    unfold getOrdersByClientHandler
    simp [h]
  · intro tbl ev h hn
    unfold getOrdersByClientHandler
    simp [h, hn]
  · intro tbl ev h hpm hval
    have hval' : ev.paymentMethod.getD "" ∉ VALID_PAYMENT_METHODS := by
      simpa using hval
    unfold getOrdersByClientHandler
    simp only [h, Bool.false_eq_true, if_false]
    cases hp : parseIntJS (ev.clientId.getD "") with
    | none => exact ⟨rfl, rfl⟩
    | some cid =>
      simp [hpm, hval', listBadFilterResp]

/-- Witness for `validation_failures_never_invoke_store`: a missing
`orderId` on UpdateInstallments and an invalid `paymentMethod` filter on
ListOrdersByClient. -/
theorem validation_failures_never_invoke_store_witness :
    updateInstallmentsHandler (stackTable [])
      { clientId := some "1", orderId := none, installments := some 6 } "T"
      = (updMissingResp, stackTable [], [])
  ∧ (getOrdersByClientHandler (stackTable [])
      { clientId := some "1", paymentMethod := some "paypal" }).2 = [] :=
  ⟨validation_failures_never_invoke_store.1 (stackTable [])
     { clientId := some "1", orderId := none, installments := some 6 } "T" (Or.inr rfl),
   (validation_failures_never_invoke_store.2.2.2 (stackTable [])
     { clientId := some "1", paymentMethod := some "paypal" } rfl rfl rfl).2⟩

/-- Unfolding of `getAttr` on a non-empty item. -/
theorem getAttr_cons (k₀ : String) (v₀ : AttrValue) (rest : Item) (k : String) :
    getAttr ((k₀, v₀) :: rest) k = if k₀ == k then some v₀ else getAttr rest k := by
  by_cases h : (k₀ == k) = true
  · simp [getAttr, List.find?_cons, h]
  · simp only [Bool.not_eq_true] at h
    simp [getAttr, List.find?_cons, h]

/-- A `SET` of one attribute leaves every other attribute's lookup
unchanged. -/
theorem getAttr_setAttr_ne (it : Item) (k k' : String) (v : AttrValue)
    (h : k' ≠ k) : getAttr (setAttr it k v) k' = getAttr it k' := by
  have hkk' : (k == k') = false := beq_eq_false_iff_ne.mpr (fun e => h e.symm)
  induction it with
  | nil => simp [setAttr, getAttr_cons, hkk']
  | cons hd tl ih =>
    obtain ⟨k₀, v₀⟩ := hd
    by_cases h₀ : (k₀ == k) = true
    · have hk : k₀ = k := by simpa using h₀
      subst hk
      simp [setAttr, getAttr_cons, hkk']
    · have h₀' : (k₀ == k) = false := by simpa using h₀
      simp [setAttr, h₀', getAttr_cons, ih]

/-- The handler's `SET Installments, UpdatedAt` actions leave every
attribute other than `Installments` and `UpdatedAt` unchanged. -/
theorem getAttr_setAttrs_updateSets (it : Item) (inst : Int) (now name : String)
    (h₁ : name ≠ "Installments") (h₂ : name ≠ "UpdatedAt") :
    getAttr (setAttrs it (updateSets inst now)) name = getAttr it name := by
  show getAttr (setAttr (setAttr it "Installments" (.n inst)) "UpdatedAt" (.s now)) name
    = getAttr it name
  rw [getAttr_setAttr_ne _ _ _ _ h₂, getAttr_setAttr_ne _ _ _ _ h₁]

/-- A successful `UpdateItem` with the handler's `SET` actions keeps every
previously stored item in place (up to those two attributes): the table
does not shrink, and the i-th old item's lookups outside
`Installments`/`UpdatedAt` agree with the i-th new item's. -/
theorem updateItem_updateSets_frame (tbl tbl' : DTable) (key : Item)
    (inst : Int) (now : String)
    (hok : updateItem tbl key (updateSets inst now) none = .ok tbl') :
    tbl.items.length ≤ tbl'.items.length
  ∧ List.Forall₂
      (fun old new => ∀ name, name ≠ "Installments" → name ≠ "UpdatedAt" →
        getAttr new name = getAttr old name)
      tbl.items (tbl'.items.take tbl.items.length) := by
  unfold updateItem at hok
  split at hok
  · split at hok
    · injection hok with h'
      subst h'
      refine ⟨by simp, ?_⟩
      have hlen : tbl.items.length
          = (tbl.items.map (fun it =>
              if matchesKey tbl key it = true then setAttrs it (updateSets inst now) else it)).length := by
        simp
      rw [show (DTable.mk tbl.pk tbl.sk (tbl.items.map (fun it =>
            if matchesKey tbl key it = true then setAttrs it (updateSets inst now) else it))).items
          = tbl.items.map (fun it =>
            if matchesKey tbl key it = true then setAttrs it (updateSets inst now) else it) from rfl]
      rw [hlen, List.take_length, List.forall₂_map_right_iff]
      refine List.forall₂_same.mpr ?_
      intro x _ name h₁ h₂
      by_cases hm : matchesKey tbl key x = true
      · simp [hm, getAttr_setAttrs_updateSets _ _ _ _ h₁ h₂]
      · have hm' : matchesKey tbl key x = false := by simpa using hm
        simp [hm']
    · injection hok with h'
      subst h'
      refine ⟨by simp, ?_⟩
      rw [show (DTable.mk tbl.pk tbl.sk (tbl.items ++ [setAttrs key (updateSets inst now)])).items
          = tbl.items ++ [setAttrs key (updateSets inst now)] from rfl]
      rw [List.take_left]
      exact List.forall₂_same.mpr (fun x _ name _ _ => rfl)
  · exact absurd hok (by simp)

/-- **C8** (counterexample).  The claim's second half — no operation ever
changes `items` or `paymentMethod` of an existing order — fails:
CreateOrder's put is unconditional, so a second create whose generated
orderId collides with an existing order's (same millisecond `1000` and
random draw `5`) replaces the record wholesale; the stored order for
`(ClientId 1, OrderId 1000005)` goes from `paymentMethod "pix"`, items
`[(10, 2)]` to `paymentMethod "credit_card"`, items `[(99, 1)]`, and the
create still reports 201. -/
theorem create_overwrites_existing_order_on_id_collision :
    (createOrderHandler pixStore cardPayload 1000 5 "T2").1.statusCode = 201
  ∧ pixStore.items.length = 1
  ∧ (createOrderHandler pixStore cardPayload 1000 5 "T2").2.1.items.length = 1
  ∧ getAttr pixStore.items.headI "PaymentMethod" = some (.s "pix")
  ∧ getAttr (createOrderHandler pixStore cardPayload 1000 5 "T2").2.1.items.headI "PaymentMethod"
    = some (.s "credit_card")
  ∧ getAttr (createOrderHandler pixStore cardPayload 1000 5 "T2").2.1.items.headI "Items"
    = some (.l [orderItemAttr { productId := 99, quantity := 1 }])
  ∧ some (AttrValue.s "credit_card") ≠ some (AttrValue.s "pix") :=
  ⟨rfl, rfl, rfl, rfl, rfl, rfl, by simp⟩

/-- **C8** (amended).  A successful UpdateInstallments modifies only the
`Installments` and `UpdatedAt` attributes of stored orders: whenever the
handler answers 200, the table has not shrunk and every previously stored
item — `ClientId`/`ClientID`, `OrderId`, `Items`, `PaymentMethod`,
`CreatedAt` included — looks up unchanged at every attribute name other
than `Installments` and `UpdatedAt`.  (CreateOrder, by contrast, replaces a
record wholesale when its generated orderId collides, per the
counterexample.) -/
theorem update_success_changes_only_installments_and_updatedat
    (tbl tbl' : DTable) (ev : UpdateEvent) (now : String) (resp : Resp)
    (ops : List StoreOp)
    (h : updateInstallmentsHandler tbl ev now = (resp, tbl', ops))
    (h200 : resp.statusCode = 200) :
    tbl.items.length ≤ tbl'.items.length
  ∧ List.Forall₂
      (fun old new => ∀ name, name ≠ "Installments" → name ≠ "UpdatedAt" →
        getAttr new name = getAttr old name)
      tbl.items (tbl'.items.take tbl.items.length) := by
  unfold updateInstallmentsHandler at h
  split at h
  · cases h
    simp [updMissingResp] at h200
  · split at h
    · split at h
      · dsimp only at h
        split at h
        · rename_i heq
          cases h
          exact updateItem_updateSets_frame _ _ _ _ _ heq
        · cases h
          simp [resp500] at h200
      · cases h
        simp [resp500] at h200
    · cases h
      simp [resp500] at h200

/-- Witness for `update_success_changes_only_installments_and_updatedat`:
a successful update of the `ClientID`-keyed store holding `p0Item`. -/
theorem update_success_changes_only_installments_and_updatedat_witness :
    (part000Table [p0Item]).items.length
      ≤ (updateInstallmentsHandler (part000Table [p0Item])
          { clientId := some "1", orderId := some "2", installments := some 9 } "T9").2.1.items.length
  ∧ List.Forall₂
      (fun old new => ∀ name, name ≠ "Installments" → name ≠ "UpdatedAt" →
        getAttr new name = getAttr old name)
      (part000Table [p0Item]).items
      ((updateInstallmentsHandler (part000Table [p0Item])
          { clientId := some "1", orderId := some "2", installments := some 9 } "T9").2.1.items.take
        (part000Table [p0Item]).items.length) :=
  update_success_changes_only_installments_and_updatedat
    (part000Table [p0Item])
    (updateInstallmentsHandler (part000Table [p0Item])
      { clientId := some "1", orderId := some "2", installments := some 9 } "T9").2.1
    { clientId := some "1", orderId := some "2", installments := some 9 } "T9"
    (updateInstallmentsHandler (part000Table [p0Item])
      { clientId := some "1", orderId := some "2", installments := some 9 } "T9").1
    (updateInstallmentsHandler (part000Table [p0Item])
      { clientId := some "1", orderId := some "2", installments := some 9 } "T9").2.2
    rfl rfl

/-- Scalar attribute-value equality is sound: `eqb` answers `true` only on
equal values. -/
theorem attrValue_eqb_eq : ∀ {a b : AttrValue}, AttrValue.eqb a b = true → a = b := by
  intro a b h
  cases a <;> cases b <;> simp [AttrValue.eqb] at h <;> simp [h]

/-- `==` on optional attribute values is sound. -/
theorem optAttrValue_eq_of_beq : ∀ {a b : Option AttrValue}, (a == b) = true → a = b
  | none, none, _ => rfl
  | some _, some _, h => congrArg some (attrValue_eqb_eq h)

/-- Distinct optional attribute values compare `false` under `==`. -/
theorem optAttrValue_beq_false_of_ne {a b : Option AttrValue} (h : a ≠ b) :
    (a == b) = false := by
  cases hab : a == b with
  | true => exact absurd (optAttrValue_eq_of_beq hab) h
  | false => rfl

/-- **C9** (confirmed).  ListOrdersByClient for a client with no stored
order matching the request — no order at all for that `clientId`, or none
whose `PaymentMethod` equals the supplied valid filter — answers a
successful 200 with `count: 0` and an empty `orders` array, not an
error. -/
theorem list_zero_matching_orders_returns_count_zero
    (items : List Item) (s : String) (cid : Int) (pm : Option String)
    (hs : s ≠ "") (hparse : parseIntJS s = some cid)
    (hpm : pm = none ∨ ∃ p, pm = some p ∧ p ∈ VALID_PAYMENT_METHODS)
    (hnomatch : ∀ it ∈ items, getAttr it "ClientId" = some (AttrValue.n cid) →
      ∃ p, pm = some p ∧ getAttr it "PaymentMethod" ≠ some (AttrValue.s p)) :
    (getOrdersByClientHandler (stackTable items)
      { clientId := some s, paymentMethod := pm }).1.statusCode = 200
  ∧ bodyField (getOrdersByClientHandler (stackTable items)
      { clientId := some s, paymentMethod := pm }).1 "count" = some (.num 0)
  ∧ bodyField (getOrdersByClientHandler (stackTable items)
      { clientId := some s, paymentMethod := pm }).1 "orders" = some (.arr []) := by
  have hs' : (s == "") = false := beq_eq_false_iff_ne.mpr hs
  unfold getOrdersByClientHandler
  rcases hpm with rfl | ⟨p, rfl, hpmem⟩
  · have hfil : items.filter
        (fun it => getAttr it "ClientId" == some (AttrValue.n cid)) = [] := by
      rw [List.filter_eq_nil_iff]
      intro it hit hbeq
      obtain ⟨q, hq, _⟩ := hnomatch it hit (optAttrValue_eq_of_beq hbeq)
      exact Option.noConfusion hq
    unfold queryByPartition
    simp [isFalsy, hs', hparse, stackTable, hfil, bodyField]
  · have hpne : (p == "") = false := by
      have hne : p ≠ "" := by
        intro h
        subst h
        simp [VALID_PAYMENT_METHODS] at hpmem
      exact beq_eq_false_iff_ne.mpr hne
    have hcont : VALID_PAYMENT_METHODS.contains p = true :=
      List.elem_eq_true_of_mem hpmem
    have hfil : (items.filter
          (fun it => getAttr it "ClientId" == some (AttrValue.n cid))).filter
        (fun it => getAttr it "PaymentMethod" == some (AttrValue.s p)) = [] := by
      rw [List.filter_filter, List.filter_eq_nil_iff]
      intro it hit hb
      rw [Bool.and_eq_true] at hb
      obtain ⟨p', hp', hne⟩ := hnomatch it hit (optAttrValue_eq_of_beq hb.2)
      have hpp : p' = p := by injection hp' with h'; exact h'.symm
      subst hpp
      exact hne (optAttrValue_eq_of_beq hb.1)
    unfold queryByPartition
    simp [isFalsy, hs', hparse, stackTable, hpne, hcont, hfil, bodyField, hpmem]

/-- Witness for `list_zero_matching_orders_returns_count_zero`: the spec's
scenario — the only stored order for client 1 used `pix`, and the list is
filtered by `credit_card`. -/
theorem list_zero_matching_orders_returns_count_zero_witness :
    (getOrdersByClientHandler (stackTable pixStore.items)
      { clientId := some "1", paymentMethod := some "credit_card" }).1.statusCode = 200
  ∧ bodyField (getOrdersByClientHandler (stackTable pixStore.items)
      { clientId := some "1", paymentMethod := some "credit_card" }).1 "count"
    = some (.num 0)
  ∧ bodyField (getOrdersByClientHandler (stackTable pixStore.items)
      { clientId := some "1", paymentMethod := some "credit_card" }).1 "orders"
    = some (.arr []) :=
  list_zero_matching_orders_returns_count_zero pixStore.items "1" 1
    (some "credit_card") (by decide) rfl
    (Or.inr ⟨"credit_card", rfl, by simp [VALID_PAYMENT_METHODS]⟩)
    (by
      intro it hit _
      refine ⟨"credit_card", rfl, ?_⟩
      rw [show pixStore.items
        = [orderItem pixPayload (generateOrderId 1000 5) "T0"] from rfl] at hit
      rw [List.mem_singleton] at hit
      subst hit
      rw [show getAttr (orderItem pixPayload (generateOrderId 1000 5) "T0") "PaymentMethod"
        = some (AttrValue.s "pix") from rfl]
      simp)

/-- **C10** (confirmed).  Every store failure in any of the three
operations is mapped to the one generic 500 response
`{success:false, error:"Erro interno do servidor"}`, whatever the error
message `e` was — the response is a constant, so the underlying cause is
never exposed — and the operation leaves the table untouched; moreover no
handler ever issues more than one store call on any input, so no retry is
attempted. -/
theorem store_failures_yield_generic_500_without_retry :
    (∀ (tbl : DTable) (order : CreateOrderPayload) (t r : Int) (now e : String),
      putItem tbl (orderItem order (generateOrderId t r) now) = .error e →
      createOrderHandler tbl order t r now
        = (resp500, tbl, [.put (orderItem order (generateOrderId t r) now)]))
  ∧ (∀ (tbl : DTable) (ev : UpdateEvent) (now : String) (c o inst : Int) (e : String),
      isFalsy ev.clientId = false → isFalsy ev.orderId = false →
      parseIntJS (ev.clientId.getD "") = some c →
      parseIntJS (ev.orderId.getD "") = some o →
      ev.installments = some inst →
      updateItem tbl (updateKey c o) (updateSets inst now) none = .error e →
      updateInstallmentsHandler tbl ev now
        = (resp500, tbl, [.update (updateKey c o) (updateSets inst now) none]))
  ∧ (∀ (tbl : DTable) (ev : ListEvent) (cid : Int) (e : String),
      isFalsy ev.clientId = false →
      parseIntJS (ev.clientId.getD "") = some cid →
      (isFalsy ev.paymentMethod = false →
        VALID_PAYMENT_METHODS.contains (ev.paymentMethod.getD "") = true) →
      queryByPartition tbl "ClientId" (.n cid)
        (if isFalsy ev.paymentMethod then none
         else some ("PaymentMethod", AttrValue.s (ev.paymentMethod.getD ""))) = .error e →
      getOrdersByClientHandler tbl ev
        = (resp500, [.query "ClientId" (.n cid)
            (if isFalsy ev.paymentMethod then none
             else some ("PaymentMethod", AttrValue.s (ev.paymentMethod.getD "")))]))
  ∧ (∀ (tbl : DTable) (order : CreateOrderPayload) (t r : Int) (now : String),
      (createOrderHandler tbl order t r now).2.2.length ≤ 1)
  ∧ (∀ (tbl : DTable) (ev : UpdateEvent) (now : String),
      (updateInstallmentsHandler tbl ev now).2.2.length ≤ 1)
  ∧ (∀ (tbl : DTable) (ev : ListEvent),
      (getOrdersByClientHandler tbl ev).2.length ≤ 1) := by
  refine ⟨?_, ?_, ?_, ?_, ?_, ?_⟩
  · intro tbl order t r now e herr
    unfold createOrderHandler
    simp only [herr]
  · intro tbl ev now c o inst e h₁ h₂ hc ho hinst herr
    unfold updateInstallmentsHandler
    simp only [h₁, h₂, Bool.or_self, Bool.false_eq_true, if_false, hc, ho, hinst, herr]
  · intro tbl ev cid e h₁ hc hval herr
    unfold getOrdersByClientHandler
    simp only [h₁, Bool.false_eq_true, if_false, hc]
    by_cases hpm : isFalsy ev.paymentMethod = true
    · rw [if_pos hpm] at herr
      simp only [hpm, Bool.not_true, Bool.false_and, Bool.false_eq_true, if_false, herr]
      simp [hpm]
    · have hpm' : isFalsy ev.paymentMethod = false := by simpa using hpm
      rw [if_neg (by simp [hpm'])] at herr
      simp only [hpm', Bool.not_false, Bool.true_and, hval hpm', Bool.not_true,
        Bool.false_eq_true, if_false]
      simp [herr]
  · intro tbl order t r now
    unfold createOrderHandler
    dsimp only
    split <;> simp
  · intro tbl ev now
    unfold updateInstallmentsHandler
    split
    · simp
    · split
      · split
        · dsimp only
          split <;> simp
        · simp
      · simp
  · intro tbl ev
    unfold getOrdersByClientHandler
    split
    · simp
    · split
      · simp
      · dsimp only
        split
        · simp
        · split <;> simp

/-- Witness for `store_failures_yield_generic_500_without_retry`: a create
against the `ClientID`-keyed table (the put lacks that key attribute), an
update against the `ClientId`-keyed table (the key carries `ClientID`), and
a query against the `ClientID`-keyed table (the key condition names
`ClientId`) — each store call fails and each handler answers the constant
generic 500. -/
theorem store_failures_yield_generic_500_without_retry_witness :
    createOrderHandler (part000Table []) pixPayload 1000 5 "T0"
      = (resp500, part000Table [],
         [.put (orderItem pixPayload (generateOrderId 1000 5) "T0")])
  ∧ updateInstallmentsHandler (stackTable [])
      { clientId := some "1", orderId := some "2", installments := some 6 } "T"
      = (resp500, stackTable [], [.update (updateKey 1 2) (updateSets 6 "T") none])
  ∧ getOrdersByClientHandler (part000Table [])
      { clientId := some "1", paymentMethod := none }
      = (resp500, [.query "ClientId" (.n 1)
          (if isFalsy (none : Option String) then none
           else some ("PaymentMethod", AttrValue.s ((none : Option String).getD "")))]) :=
  ⟨store_failures_yield_generic_500_without_retry.1 (part000Table []) pixPayload
     1000 5 "T0" "ValidationException: One of the required keys was not given a value" rfl,
   store_failures_yield_generic_500_without_retry.2.1 (stackTable [])
     { clientId := some "1", orderId := some "2", installments := some 6 } "T" 1 2 6
     "ValidationException: The provided key element does not match the schema"
     rfl rfl rfl rfl rfl rfl,
   store_failures_yield_generic_500_without_retry.2.2.1 (part000Table [])
     { clientId := some "1", paymentMethod := none } 1
     "ValidationException: Query condition missed key schema element"
     rfl rfl (fun h => absurd h (by simp [isFalsy])) rfl⟩
